import Mathlib

/-!
Verification of the geargraph-api resolver layer.

The Python source (app/schema/resolvers.py, app/auth/api_key.py, app/main.py)
is shallowly embedded below.  Graph-store rows are modelled as structures of
optional fields (a node property bag), Cypher query semantics (WHERE
filtering, ORDER BY with nulls-last, LIMIT) are modelled as list filtering,
sorting and truncation over an explicit store, and Python truthiness checks
are modelled explicitly.  Strings are lists of characters.
-/

namespace GearGraph

/-- Strings are modelled as lists of characters. -/
abbrev Str := List Char

/-- `toLower` on a string, as Cypher's `toLower`. -/
def lowerStr (s : Str) : Str := s.map Char.toLower

/-- Python truthiness of an `Optional[str]`: `None` and `""` are falsy. -/
def truthyStr : Option Str → Bool
  | none => false
  | some s => !s.isEmpty

/-- Python truthiness of an `Optional[int]`: `None` and `0` are falsy. -/
def truthyInt : Option Int → Bool
  | none => false
  | some n => decide (n ≠ 0)

/-- Python truthiness of an `Optional[float]`: `None` and `0.0` are falsy.
Stored prices are modelled as rationals. -/
def truthyRat : Option ℚ → Bool
  | none => false
  | some q => decide (q ≠ 0)

/-- A dynamically-typed property value as stored on a graph node, covering
the shapes `_parse_int` distinguishes: `int`, `bool` (a subclass of `int`
in Python), `str`, and anything else. -/
inductive PVal where
  | pint (n : Int)
  | pbool (b : Bool)
  | pstr (s : Str)
  | pother
deriving DecidableEq, Repr

/-- Decimal value of a list of digit characters, as Python `int(...)` on the
joined digits. -/
def digitsVal (ds : Str) : Int :=
  ds.foldl (fun acc c => 10 * acc + ((c.toNat : Int) - 48)) 0

/-- `_parse_int` from resolvers.py.  `None` maps to `None`; the
`isinstance(value, int)` branch passes integers through unchanged and, since
Python `bool` is a subclass of `int`, passes `True`/`False` through as
`1`/`0`; a string keeps exactly its digit characters and parses them as a
decimal integer, a digit-free string raising `ValueError` which is caught
and turned into `None`; any other shape maps to `None`. -/
def parseInt : Option PVal → Option Int
  | none => none
  | some (.pint n) => some n
  | some (.pbool b) => some (if b then 1 else 0)
  | some (.pstr s) =>
      let ds := s.filter Char.isDigit
      if ds.isEmpty then none else some (digitsVal ds)
  | some .pother => none

/-- A `GearItem` graph node's property bag: each property the resolvers read
is optional (absent key models an absent property). -/
structure GNode where
  gearId : Option Str := none
  name : Option Str := none
  brand : Option Str := none
  brandName : Option Str := none
  productType : Option Str := none
  category : Option Str := none
  description : Option Str := none
  weight_grams : Option Int := none
  price_usd : Option ℚ := none
  volumeLiters : Option ℚ := none
  capacityPersons : Option Int := none
  tempRatingF : Option Int := none
  fillPower : Option Int := none
  rValue : Option ℚ := none
  lumens : Option PVal := none
  fuelType : Option Str := none
  waterproofRating : Option Str := none
  materials : Option (List Str) := none
  features : Option (List Str) := none
  productUrl : Option Str := none
  imageUrl : Option Str := none
deriving DecidableEq, Repr

/-- An `Insight` row as returned by the insights query (summary, content,
category, sourceUrl aliases; any may be null). -/
structure Insight where
  summary : Option Str := none
  content : Option Str := none
  category : Option Str := none
  source_url : Option Str := none
deriving DecidableEq, Repr

/-- The `GearItem` GraphQL type from types.py (the `brand` nested field is
never set by the resolvers and is omitted). -/
structure GearItem where
  gear_id : Str
  name : Str
  brand_name : Str
  product_type : Option Str := none
  category : Option Str := none
  description : Option Str := none
  weight_grams : Option Int := none
  price_usd : Option ℚ := none
  volume_liters : Option ℚ := none
  capacity_persons : Option Int := none
  temp_rating_f : Option Int := none
  fill_power : Option Int := none
  r_value : Option ℚ := none
  lumens : Option Int := none
  fuel_type : Option Str := none
  waterproof_rating : Option Str := none
  materials : Option (List Str) := none
  features : Option (List Str) := none
  product_url : Option Str := none
  image_url : Option Str := none
  insights : Option (List Insight) := none
deriving DecidableEq, Repr

/-- `_map_gear_item` from resolvers.py: `node.get(k, d)` becomes `getD`. -/
def mapGearItem (node : GNode) : GearItem where
  gear_id := node.gearId.getD (node.name.getD [])
  name := node.name.getD []
  brand_name := node.brand.getD (node.brandName.getD [])
  product_type := node.productType
  category := node.category
  description := node.description
  weight_grams := node.weight_grams
  price_usd := node.price_usd
  volume_liters := node.volumeLiters
  capacity_persons := node.capacityPersons
  temp_rating_f := node.tempRatingF
  fill_power := node.fillPower
  r_value := node.rValue
  lumens := parseInt node.lumens
  fuel_type := node.fuelType
  waterproof_rating := node.waterproofRating
  materials := node.materials
  features := node.features
  product_url := node.productUrl
  image_url := node.imageUrl
  insights := none

/-- An `OutdoorBrand` graph node's property bag. -/
structure BNode where
  name : Option Str := none
  country : Option Str := none
  website : Option Str := none
  yearFounded : Option Int := none
  description : Option Str := none
  bestKnownFor : Option Str := none
deriving DecidableEq, Repr

/-- The `Brand` GraphQL type from types.py. -/
structure Brand where
  id : Str
  name : Str
  country : Option Str := none
  website : Option Str := none
  year_founded : Option Int := none
  description : Option Str := none
  best_known_for : Option Str := none
deriving DecidableEq, Repr

/-- The graph store: `GearItem` nodes, `OutdoorBrand` nodes, and the
`HAS_TIP` relation represented as (owning gear id, insight row) pairs in
store-returned order. -/
structure Store where
  gear : List GNode := []
  brands : List BNode := []
  insights : List (Str × Insight) := []
deriving DecidableEq, Repr

/-! ### resolve_all_gear: WHERE-clause assembly (C1) -/

/-- The `GearFilter` input type from types.py: every field optional. -/
structure GearFilter where
  brand_name : Option Str := none
  product_type : Option Str := none
  category : Option Str := none
  weight_grams_lt : Option Int := none
  weight_grams_gt : Option Int := none
  price_usd_lt : Option ℚ := none
  price_usd_gt : Option ℚ := none
  capacity_persons : Option Int := none
deriving DecidableEq, Repr

/-- One WHERE predicate clause of the gear-listing query, tagged with the
parameter value bound to it. -/
inductive Clause where
  | brandEq (v : Str)
  | productTypeEq (v : Str)
  | categoryEq (v : Str)
  | weightLt (v : Int)
  | weightGt (v : Int)
  | priceLt (v : ℚ)
  | priceGt (v : ℚ)
  | capacityEq (v : Int)
deriving DecidableEq, Repr

/-- The `where_clauses` list built by `resolve_all_gear`: the source gates
every append on Python truthiness of the filter field (`if filter.x:`), not
on presence. -/
def gearWhereClauses (filter : Option GearFilter) : List Clause :=
  match filter with
  | none => []
  | some f =>
    (if truthyStr f.brand_name then [Clause.brandEq (f.brand_name.getD [])] else []) ++
    (if truthyStr f.product_type then [Clause.productTypeEq (f.product_type.getD [])] else []) ++
    (if truthyStr f.category then [Clause.categoryEq (f.category.getD [])] else []) ++
    (if truthyInt f.weight_grams_lt then [Clause.weightLt (f.weight_grams_lt.getD 0)] else []) ++
    (if truthyInt f.weight_grams_gt then [Clause.weightGt (f.weight_grams_gt.getD 0)] else []) ++
    (if truthyRat f.price_usd_lt then [Clause.priceLt (f.price_usd_lt.getD 0)] else []) ++
    (if truthyRat f.price_usd_gt then [Clause.priceGt (f.price_usd_gt.getD 0)] else []) ++
    (if truthyInt f.capacity_persons then [Clause.capacityEq (f.capacity_persons.getD 0)] else [])

/-! ### Authorization gate (C7) -/

/-- `verify_api_key` from app/auth/api_key.py: `if not api_key: return
False`, then exact string comparison with the configured secret. -/
def verifyApiKey (apiKey : Option Str) (secret : Str) : Bool :=
  match apiKey with
  | none => false
  | some k => if k.isEmpty then false else decide (k = secret)

/-- The HTTP methods the /graphql route accepts. -/
inductive Method where
  | get
  | post
  | options
deriving DecidableEq, Repr

/-- Outcome of the /graphql route: the request is handed to the GraphQL app,
or rejected before query execution with an HTTP status. -/
inductive AuthOutcome where
  | handled
  | rejected (status : Nat)
deriving DecidableEq, Repr

/-- `graphql_with_auth` from app/main.py: OPTIONS and GET skip the check,
POST requires `verify_api_key` on the `X-API-Key` header, else 401. -/
def graphqlWithAuth (method : Method) (apiKey : Option Str) (secret : Str) : AuthOutcome :=
  match method with
  | .options => .handled
  | .get => .handled
  | .post => if verifyApiKey apiKey secret then .handled else .rejected 401

/-! ### Autocomplete (C2): substring match and tie-break ordering -/

/-- Cypher `hay CONTAINS needle` on already-lowercased strings: some
contiguous run of `hay` equals `needle`. -/
def containsSub : Str → Str → Bool
  | [], needle => needle.isEmpty
  | c :: tl, needle => needle.isPrefixOf (c :: tl) || containsSub tl needle

/-- Lexicographic string comparison by character code, as Cypher's
`ORDER BY` on string values. -/
def strLeB : Str → Str → Bool
  | [], _ => true
  | _ :: _, [] => false
  | a :: as, b :: bs => if a = b then strLeB as bs else decide (a < b)

/-- The `CASE WHEN toLower(name) STARTS WITH toLower($query) THEN 0 ELSE 1
END` sort key of the autocomplete queries. -/
def acTier (q n : Str) : Nat :=
  if (lowerStr q).isPrefixOf (lowerStr n) then 0 else 1

/-- The composite autocomplete sort order on names: primary key `acTier`,
secondary key the raw name. -/
def acLe (q na nb : Str) : Bool :=
  if acTier q na < acTier q nb then true
  else if acTier q nb < acTier q na then false
  else strLeB na nb

theorem strLeB_total (a b : Str) : strLeB a b = true ∨ strLeB b a = true := by
  induction a generalizing b with
  | nil => exact Or.inl rfl
  | cons x xs ih =>
    cases b with
    | nil => exact Or.inr rfl
    | cons y ys =>
      by_cases hxy : x = y
      · subst hxy
        simpa [strLeB] using ih ys
      · rcases lt_or_gt_of_ne hxy with h | h
        · exact Or.inl (by simp [strLeB, hxy, h])
        · exact Or.inr (by simp [strLeB, Ne.symm hxy, h])

theorem strLeB_trans {a b c : Str} (hab : strLeB a b = true) (hbc : strLeB b c = true) :
    strLeB a c = true := by
  induction a generalizing b c with
  | nil => rfl
  | cons x xs ih =>
    cases b with
    | nil => simp [strLeB] at hab
    | cons y ys =>
      cases c with
      | nil => simp [strLeB] at hbc
      | cons z zs =>
        by_cases hxy : x = y
        · subst hxy
          by_cases hxz : x = z
          · subst hxz
            simp only [strLeB, if_pos rfl] at hab hbc ⊢
            exact ih hab hbc
          · simp only [strLeB, if_pos rfl] at hab
            simp only [strLeB, if_neg hxz, decide_eq_true_eq] at hbc ⊢
            exact hbc
        · by_cases hyz : y = z
          · subst hyz
            simp only [strLeB, if_neg hxy, decide_eq_true_eq] at hab ⊢
            exact hab
          · simp only [strLeB, if_neg hxy, decide_eq_true_eq] at hab
            simp only [strLeB, if_neg hyz, decide_eq_true_eq] at hbc
            have hxz : x < z := lt_trans hab hbc
            simp [strLeB, ne_of_lt hxz, hxz]

theorem acLe_iff (q a b : Str) :
    acLe q a b = true ↔
      acTier q a < acTier q b ∨ (acTier q a = acTier q b ∧ strLeB a b = true) := by
  unfold acLe
  rcases Nat.lt_trichotomy (acTier q a) (acTier q b) with h | h | h
  · simp [h]
  · simp [h, Nat.lt_irrefl]
  · simp [Nat.lt_asymm h, h, (Nat.ne_of_lt h).symm]

theorem acLe_total (q a b : Str) : acLe q a b = true ∨ acLe q b a = true := by
  rw [acLe_iff, acLe_iff]
  rcases Nat.lt_trichotomy (acTier q a) (acTier q b) with h | h | h
  · exact Or.inl (Or.inl h)
  · rcases strLeB_total a b with hs | hs
    · exact Or.inl (Or.inr ⟨h, hs⟩)
    · exact Or.inr (Or.inr ⟨h.symm, hs⟩)
  · exact Or.inr (Or.inl h)

theorem acLe_trans {q a b c : Str} (hab : acLe q a b = true) (hbc : acLe q b c = true) :
    acLe q a c = true := by
  rw [acLe_iff] at hab hbc ⊢
  rcases hab with h1 | ⟨h1, s1⟩ <;> rcases hbc with h2 | ⟨h2, s2⟩
  · exact Or.inl (by omega)
  · exact Or.inl (by omega)
  · exact Or.inl (by omega)
  · exact Or.inr ⟨by omega, strLeB_trans s1 s2⟩

/-- The autocomplete ordering on gear nodes (`ORDER BY CASE ..., g.name`).
Filtered rows always carry a name; `getD` supplies a default for the
unreachable nameless case. -/
def gearAcRel (q : Str) (a b : GNode) : Prop :=
  acLe q (a.name.getD []) (b.name.getD []) = true

instance (q : Str) : DecidableRel (gearAcRel q) := fun a b => by
  unfold gearAcRel; infer_instance

instance (q : Str) : IsTotal GNode (gearAcRel q) :=
  ⟨fun a b => acLe_total q (a.name.getD []) (b.name.getD [])⟩

instance (q : Str) : IsTrans GNode (gearAcRel q) :=
  ⟨fun _ _ _ => acLe_trans⟩

/-- The autocomplete ordering on brand nodes. -/
def brandAcRel (q : Str) (a b : BNode) : Prop :=
  acLe q (a.name.getD []) (b.name.getD []) = true

instance (q : Str) : DecidableRel (brandAcRel q) := fun a b => by
  unfold brandAcRel; infer_instance

instance (q : Str) : IsTotal BNode (brandAcRel q) :=
  ⟨fun a b => acLe_total q (a.name.getD []) (b.name.getD [])⟩

instance (q : Str) : IsTrans BNode (brandAcRel q) :=
  ⟨fun _ _ _ => acLe_trans⟩

/-- `resolve_autocomplete_gear`: rows whose lowercased name contains the
lowercased query, ordered by (starts-with tier, name), capped at `limit`,
mapped through `_map_gear_item`. -/
def autocompleteGearT (store : Store) (q : Str) (limit : Nat) : List GearItem :=
  let matched := store.gear.filter fun g =>
    match g.name with
    | none => false
    | some n => containsSub (lowerStr n) (lowerStr q)
  (((matched.insertionSort (gearAcRel q)).take limit).map mapGearItem)

/-- The row-to-Brand mapping used by `resolve_autocomplete_brands` (only
name, country, website are selected; matched rows carry a name). -/
def mapBrandAc (row : BNode) : Brand where
  id := row.name.getD []
  name := row.name.getD []
  country := row.country
  website := row.website

/-- `resolve_autocomplete_brands`: same shape as the gear autocomplete. -/
def autocompleteBrandsT (store : Store) (q : Str) (limit : Nat) : List Brand :=
  let matched := store.brands.filter fun b =>
    match b.name with
    | none => false
    | some n => containsSub (lowerStr n) (lowerStr q)
  (((matched.insertionSort (brandAcRel q)).take limit).map mapBrandAc)

/-! ### resolve_gear (C5, C10) -/

/-- Shared tail of `resolve_gear` after the lookup query: `None` row returns
`None` (one query issued so far); a found row is mapped and a second query
attaches its insights (two queries). The insights query matches `HAS_TIP`
rows owned by the mapped item's `gear_id`. -/
def gearLookupFinish (store : Store) (row : Option GNode) : Option GearItem × Nat :=
  match row with
  | none => (none, 1)
  | some node =>
    let gear := mapGearItem node
    let irows := store.insights.filter fun p => decide (p.1 = gear.gear_id)
    (some { gear with insights := some (irows.map Prod.snd) }, 2)

/-- `resolve_gear` from resolvers.py, instrumented with the number of store
queries issued.  `if gear_id:` and `elif name:` are Python truthiness
checks; the id branch matches `gearId` exactly, the name branch matches the
name case-insensitively (`toLower(g.name) = toLower($name)`, null names
never matching), the final branch returns `None` with no query. -/
def resolveGearT (store : Store) (gearId nm : Option Str) : Option GearItem × Nat :=
  if truthyStr gearId then
    gearLookupFinish store
      (store.gear.find? fun g => decide (g.gearId = some (gearId.getD [])))
  else if truthyStr nm then
    gearLookupFinish store
      (store.gear.find? fun g => decide (g.name.map lowerStr = some (lowerStr (nm.getD []))))
  else (none, 0)

/-! ### resolve_find_alternatives (C4, C8) -/

/-- The `AlternativeFilter` input type from types.py. -/
structure AlternativeFilter where
  max_weight : Option Int := none
  max_price : Option ℚ := none
  capacity_persons : Option Int := none
  product_type : Option Str := none
deriving DecidableEq, Repr

/-- The `$product_type` parameter of the candidate query:
`filter.product_type if filter and filter.product_type else
ref["product_type"]` (Python truthiness, so an empty-string override falls
back to the reference's type). -/
def altPtParam (ref : GNode) (filter : Option AlternativeFilter) : Str :=
  match filter with
  | some f => if truthyStr f.product_type then f.product_type.getD [] else ref.productType.getD []
  | none => ref.productType.getD []

/-- Cypher `g.weight_grams <= $max_weight`: a null property makes the
comparison null, which WHERE treats as not-true. -/
def cypherLeInt (w : Option Int) (m : Int) : Bool :=
  match w with
  | none => false
  | some v => decide (v ≤ m)

/-- Cypher `g.price_usd <= $max_price` with null treated as not-true. -/
def cypherLeRat (p : Option ℚ) (m : ℚ) : Bool :=
  match p with
  | none => false
  | some v => decide (v ≤ m)

/-- The WHERE predicate of the candidate query of
`resolve_find_alternatives`: same product type as `$product_type`, a
`gearId` present and different from `$id`, and the optional truthiness-gated
max-weight / max-price / capacity clauses. -/
def altPred (gearId ptParam : Str) (filter : Option AlternativeFilter) (g : GNode) : Bool :=
  decide (g.productType = some ptParam) &&
  (match g.gearId with
   | none => false
   | some gid => decide (gid ≠ gearId)) &&
  (match filter with
   | none => true
   | some f =>
     (if truthyInt f.max_weight then cypherLeInt g.weight_grams (f.max_weight.getD 0) else true) &&
     (if truthyRat f.max_price then cypherLeRat g.price_usd (f.max_price.getD 0) else true) &&
     (if truthyInt f.capacity_persons then decide (g.capacityPersons = some (f.capacity_persons.getD 0)) else true))

/-- `ORDER BY g.weight_grams ASC`: ascending weight with null weights
sorting last. -/
def weightLe (a b : Option Int) : Bool :=
  match a, b with
  | some x, some y => decide (x ≤ y)
  | some _, none => true
  | none, some _ => false
  | none, none => true

/-- The candidate ordering on gear nodes. -/
def altWeightRel (a b : GNode) : Prop :=
  weightLe a.weight_grams b.weight_grams = true

instance : DecidableRel altWeightRel := fun a b => by
  unfold altWeightRel; infer_instance

instance : IsTotal GNode altWeightRel :=
  ⟨fun a b => by
    unfold altWeightRel
    cases a.weight_grams <;> cases b.weight_grams <;> simp [weightLe] <;> omega⟩

instance : IsTrans GNode altWeightRel :=
  ⟨fun a b c hab hbc => by
    unfold altWeightRel at hab hbc ⊢
    revert hab hbc
    cases a.weight_grams <;> cases b.weight_grams <;> cases c.weight_grams <;>
      simp [weightLe] <;> omega⟩

/-- `resolve_find_alternatives` from resolvers.py, instrumented with the
number of store queries issued.  The reference lookup is
`execute_single` (the first matching row); `if not ref or not
ref.get("product_type")` is a truthiness check, so a missing reference, a
null product type and an empty-string product type all short-circuit to an
empty result after the single reference query. -/
def findAlternativesT (store : Store) (gearId : Str) (filter : Option AlternativeFilter)
    (limit : Nat) : List GearItem × Nat :=
  match store.gear.find? fun g => decide (g.gearId = some gearId) with
  | none => ([], 1)
  | some ref =>
    if truthyStr ref.productType then
      let matched := store.gear.filter (altPred gearId (altPtParam ref filter) filter)
      ((((matched.insertionSort altWeightRel).take limit).map mapGearItem), 2)
    else ([], 1)

/-! ### resolve_all_categories (C6) -/

/-- A row of the category query: the category name and the collected
product types of its product families (`collect` never yields nulls, but
the Python guards against them, so options are kept). -/
structure CatRow where
  category : Str
  productTypes : List (Option Str)
deriving DecidableEq, Repr

/-- The `ProductType` GraphQL type. -/
structure ProductType where
  name : Str
deriving DecidableEq, Repr

/-- The `Subcategory` GraphQL type. -/
structure Subcategory where
  name : Str
  product_types : List ProductType
deriving DecidableEq, Repr

/-- The `Category` GraphQL type. -/
structure Category where
  name : Str
  subcategories : List Subcategory
deriving DecidableEq, Repr

/-- The literal subcategory name `"All"`. -/
def allName : Str := ['A', 'l', 'l']

/-- `resolve_all_categories` from resolvers.py, over the rows returned by
the category query: non-null product types become `ProductType` values, and
the subcategory list is `[Subcategory("All", product_types)]` when the
product-type list is non-empty (Python truthiness of a list) and `[]`
otherwise. -/
def resolveAllCategories (rows : List CatRow) : List Category :=
  rows.map fun row =>
    let pts := (row.productTypes.filterMap id).map ProductType.mk
    { name := row.category
      subcategories :=
        if pts.isEmpty then [] else [{ name := allName, product_types := pts }] }

/-! ### Concrete stores used to instantiate the theorems -/

/-- A small store exercising the autocomplete ordering: two gear names and
two brand names sharing a tier. -/
def acStore : Store where
  gear := [{ name := some ['a', 'c'] }, { name := some ['a', 'b'] }]
  brands := [{ name := some ['b', 'y'] }, { name := some ['b', 'x'] }]
  insights := []

/-- A store with a single gear item carrying an id, for the identity-lookup
theorems. -/
def idStore : Store where
  gear := [{ gearId := some ['g'], name := some ['N'] }]
  brands := []
  insights := []

/-- A store with a reference item and two same-type candidates, for the
find-alternatives theorems. -/
def altStore : Store where
  gear := [{ gearId := some ['r'], productType := some ['T'] },
           { gearId := some ['a'], productType := some ['T'], weight_grams := some 5 },
           { gearId := some ['b'], productType := some ['T'], weight_grams := some 3 }]
  brands := []
  insights := []

/-! ### Shared lemmas -/

theorem gearLookupFinish_isSome (store : Store) (row : Option GNode) :
    (gearLookupFinish store row).1.isSome = row.isSome := by
  cases row <;> rfl

theorem acLe_tier_zero {q na nb : Str} (h : acLe q na nb = true) (h0 : acTier q nb = 0) :
    acTier q na = 0 := by
  rw [acLe_iff] at h
  rcases h with h | ⟨h, _⟩ <;> omega

theorem acLe_same_tier {q na nb : Str} (h : acLe q na nb = true)
    (ht : acTier q na = acTier q nb) : strLeB na nb = true := by
  rw [acLe_iff] at h
  rcases h with h | ⟨_, hs⟩
  · omega
  · exact hs

theorem autocompleteGearT_pairwise (store : Store) (q : Str) (limit : Nat) :
    (autocompleteGearT store q limit).Pairwise fun a b => acLe q a.name b.name = true := by
  unfold autocompleteGearT
  exact List.pairwise_map.mpr
    (((List.sorted_insertionSort (gearAcRel q) _).sublist (List.take_sublist _ _)).imp
      fun h => h)

theorem autocompleteBrandsT_pairwise (store : Store) (q : Str) (limit : Nat) :
    (autocompleteBrandsT store q limit).Pairwise fun a b => acLe q a.name b.name = true := by
  unfold autocompleteBrandsT
  exact List.pairwise_map.mpr
    (((List.sorted_insertionSort (brandAcRel q) _).sublist (List.take_sublist _ _)).imp
      fun h => h)

/-! ### Claim theorems -/

/-- C1: the claim says the emitted WHERE predicate set has exactly one
clause per present (non-null) filter field — presence, not truthiness,
deciding emission, so a supplied zero still contributes its clause.  The
source gates each clause on Python truthiness, so a present zero-valued
field (`weight_grams_lt = 0` or `capacity_persons = 0`) emits no clause at
all, while the same field with a non-zero value emits exactly one. -/
theorem all_gear_zero_filter_emits_no_clause :
    gearWhereClauses (some { weight_grams_lt := some 0 }) = [] ∧
    gearWhereClauses (some { capacity_persons := some 0 }) = [] ∧
    gearWhereClauses (some { weight_grams_lt := some 1 }) = [Clause.weightLt 1] ∧
    gearWhereClauses (some { capacity_persons := some 2 }) = [Clause.capacityEq 2] ∧
    gearWhereClauses none = [] := by
  refine ⟨rfl, rfl, ?_, ?_, rfl⟩ <;> rfl

/-- C3: `_parse_int` passes an integer through unchanged, parses a string
as the decimal value of exactly its digit characters in order, yields unset
on a digit-free string, on an absent value, and on any other input shape. -/
theorem parse_int_coercion :
    (∀ n : Int, parseInt (some (.pint n)) = some n) ∧
    (∀ s : Str, s.filter Char.isDigit ≠ [] →
        parseInt (some (.pstr s)) = some (digitsVal (s.filter Char.isDigit))) ∧
    (∀ s : Str, s.filter Char.isDigit = [] → parseInt (some (.pstr s)) = none) ∧
    parseInt none = none ∧
    parseInt (some .pother) = none := by
  refine ⟨fun n => rfl, fun s h => ?_, fun s h => ?_, rfl, rfl⟩
  · simp only [parseInt]
    rw [if_neg (by simpa [List.isEmpty_iff] using h)]
  · simp only [parseInt]
    rw [if_pos (by simpa [List.isEmpty_iff] using h)]

/-- C3 witness: the concrete spec examples, `"500 lumens"` parsing to 500
and `"bright"` to unset. -/
theorem parse_int_coercion_witness :
    parseInt (some (.pstr ['5', '0', '0', ' ', 'l', 'u', 'm', 'e', 'n', 's'])) = some 500 ∧
    parseInt (some (.pstr ['b', 'r', 'i', 'g', 'h', 't'])) = none :=
  ⟨(parse_int_coercion.2.1 ['5', '0', '0', ' ', 'l', 'u', 'm', 'e', 'n', 's']
      (by decide)).trans (by decide),
   parse_int_coercion.2.2.1 ['b', 'r', 'i', 'g', 'h', 't'] (by decide)⟩

/-- C9: a stored boolean lumens value is caught by the integer branch of
`_parse_int` (Python `bool` is a subclass of `int`), so it maps to 1 or 0
rather than unset, and a mapped gear item built from such a node carries
lumens 1 or 0. -/
theorem parse_int_bool_via_int_branch :
    (∀ b : Bool, parseInt (some (.pbool b)) = some (if b then 1 else 0)) ∧
    (∀ (node : GNode) (b : Bool), node.lumens = some (.pbool b) →
        (mapGearItem node).lumens = some (if b then 1 else 0)) := by
  refine ⟨fun b => rfl, fun node b h => ?_⟩
  show parseInt node.lumens = some (if b then 1 else 0)
  rw [h]
  cases b <;> rfl

/-- C9 witness: a node whose lumens property is `True` maps to lumens 1,
one with `False` maps to lumens 0. -/
theorem parse_int_bool_via_int_branch_witness :
    (mapGearItem { lumens := some (.pbool true) }).lumens = some 1 ∧
    (mapGearItem { lumens := some (.pbool false) }).lumens = some 0 :=
  ⟨parse_int_bool_via_int_branch.2 { lumens := some (.pbool true) } true rfl,
   parse_int_bool_via_int_branch.2 { lumens := some (.pbool false) } false rfl⟩

/-- C7: `verify_api_key` rejects an absent or empty credential, accepts a
non-empty credential exactly when it equals the configured secret by string
comparison, and the /graphql route lets GET and OPTIONS bypass the check
while a POST failing it is rejected with 401 before execution. -/
theorem api_key_gate :
    (∀ secret : Str, verifyApiKey none secret = false ∧ verifyApiKey (some []) secret = false) ∧
    (∀ k secret : Str, k ≠ [] → (verifyApiKey (some k) secret = true ↔ k = secret)) ∧
    (∀ (key : Option Str) (secret : Str),
        graphqlWithAuth .get key secret = .handled ∧
        graphqlWithAuth .options key secret = .handled) ∧
    (∀ (key : Option Str) (secret : Str), verifyApiKey key secret = false →
        graphqlWithAuth .post key secret = .rejected 401) ∧
    (∀ (key : Option Str) (secret : Str), verifyApiKey key secret = true →
        graphqlWithAuth .post key secret = .handled) := by
  refine ⟨fun _ => ⟨rfl, rfl⟩, fun k secret hk => ?_, fun _ _ => ⟨rfl, rfl⟩,
    fun key secret h => ?_, fun key secret h => ?_⟩
  · simp [verifyApiKey, List.isEmpty_iff, hk]
  · simp [graphqlWithAuth, h]
  · simp [graphqlWithAuth, h]

/-- C7 witness: a matching key is accepted, a mismatched key on POST draws
a 401, and a GET with no key is handled. -/
theorem api_key_gate_witness :
    verifyApiKey (some ['k']) ['k'] = true ∧
    graphqlWithAuth .post (some ['x']) ['k'] = .rejected 401 ∧
    graphqlWithAuth .get none ['k'] = .handled :=
  ⟨(api_key_gate.2.1 ['k'] ['k'] (by decide)).mpr rfl,
   api_key_gate.2.2.2.1 (some ['x']) ['k'] (by decide),
   (api_key_gate.2.2.1 none ['k']).1⟩

/-- C10: `resolve_gear` treats an empty-string gear id as absent — the call
behaves exactly as the call with no id at all (falling through to the name
branch), and with both id and name empty (or the name absent) it returns
`None` having issued zero store queries. -/
theorem resolve_gear_empty_id_treated_absent :
    (∀ (store : Store) (nm : Option Str),
        resolveGearT store (some []) nm = resolveGearT store none nm) ∧
    (∀ store : Store,
        resolveGearT store (some []) (some []) = (none, 0) ∧
        resolveGearT store (some []) none = (none, 0)) :=
  ⟨fun _ _ => rfl, fun _ => ⟨rfl, rfl⟩⟩

/-- C5: `resolve_gear` looks up by internal id when one is given (the name
argument is then ignored — id takes precedence), looks up by
case-insensitive exact name match when only a name is given, and returns
`None` without issuing any store query when neither is supplied. -/
theorem resolve_gear_lookup :
    (∀ (store : Store) (gid : Str) (nm : Option Str), gid ≠ [] →
        resolveGearT store (some gid) nm = resolveGearT store (some gid) none) ∧
    (∀ (store : Store) (gid : Str) (nm : Option Str), gid ≠ [] →
        ((resolveGearT store (some gid) nm).1.isSome = true ↔
          ∃ g ∈ store.gear, g.gearId = some gid)) ∧
    (∀ (store : Store) (nm : Str), nm ≠ [] →
        ((resolveGearT store none (some nm)).1.isSome = true ↔
          ∃ g ∈ store.gear, g.name.map lowerStr = some (lowerStr nm))) ∧
    (∀ store : Store, resolveGearT store none none = (none, 0)) := by
  have htr : ∀ s : Str, s ≠ [] → truthyStr (some s) = true := by
    intro s hs
    simp [truthyStr, List.isEmpty_iff, hs]
  refine ⟨fun store gid nm hgid => ?_, fun store gid nm hgid => ?_,
    fun store nm hnm => ?_, fun store => rfl⟩
  · simp [resolveGearT, htr gid hgid]
  · rw [resolveGearT, if_pos (htr gid hgid), gearLookupFinish_isSome]
    simp [List.find?_isSome]
  · rw [resolveGearT, if_neg (by simp [truthyStr]), if_pos (htr nm hnm),
      gearLookupFinish_isSome]
    simp [List.find?_isSome]

/-- C5 witness: in a one-item store the id lookup finds the item with the
name argument present and ignored, the case-insensitive name lookup finds
it by a differently-cased name, and the no-argument call issues no query. -/
theorem resolve_gear_lookup_witness :
    (resolveGearT idStore (some ['g']) (some ['z'])).1.isSome = true ∧
    (resolveGearT idStore none (some ['n'])).1.isSome = true ∧
    resolveGearT idStore none none = (none, 0) :=
  ⟨(resolve_gear_lookup.2.1 idStore ['g'] (some ['z']) (by decide)).mpr
      ⟨{ gearId := some ['g'], name := some ['N'] }, by simp [idStore], rfl⟩,
   (resolve_gear_lookup.2.2.1 idStore ['n'] (by decide)).mpr
      ⟨{ gearId := some ['g'], name := some ['N'] }, by simp [idStore], by decide⟩,
   resolve_gear_lookup.2.2.2 idStore⟩

/-- C6: each row of the category query maps to one category of the same
name; a row with at least one non-null product type yields exactly one
subcategory, named "All", containing exactly those product types; a row
with none yields an empty subcategory list; rows map one-to-one. -/
theorem all_categories_hierarchy (rows : List CatRow) (i : Nat) (row : CatRow)
    (h : rows[i]? = some row) :
    (resolveAllCategories rows).length = rows.length ∧
    ∃ c, (resolveAllCategories rows)[i]? = some c ∧
      c.name = row.category ∧
      (row.productTypes.filterMap id = [] → c.subcategories = []) ∧
      (row.productTypes.filterMap id ≠ [] →
        ∃ s, c.subcategories = [s] ∧ s.name = allName ∧
          s.product_types = (row.productTypes.filterMap id).map ProductType.mk) := by
  have hmap : (resolveAllCategories rows)[i]? = some
      { name := row.category
        subcategories :=
          if ((row.productTypes.filterMap id).map ProductType.mk).isEmpty then []
          else [{ name := allName,
                  product_types := (row.productTypes.filterMap id).map ProductType.mk }] } := by
    unfold resolveAllCategories
    rw [List.getElem?_map, h]
    rfl
  refine ⟨by simp [resolveAllCategories],
    _, hmap, rfl, fun hempty => ?_, fun hne => ?_⟩
  · simp [hempty]
  · have hne' : ¬((row.productTypes.filterMap id).map ProductType.mk).isEmpty = true := by
      simp [List.isEmpty_iff, hne]
    exact ⟨{ name := allName,
             product_types := (row.productTypes.filterMap id).map ProductType.mk },
      by rw [if_neg hne'], rfl, rfl⟩

/-- C6 witness: a row with product types [Tent, null, Tarp] yields one
subcategory named "All" with both non-null types; membership of the row is
by position. -/
theorem all_categories_hierarchy_witness :
    (resolveAllCategories [⟨['S'], [some ['T'], none, some ['P']]⟩]).length = 1 ∧
    ∃ c, (resolveAllCategories [⟨['S'], [some ['T'], none, some ['P']]⟩])[0]? = some c ∧
      c.name = ['S'] ∧
      (([some ['T'], none, some ['P']].filterMap (id : Option Str → Option Str)) = [] →
        c.subcategories = []) ∧
      (([some ['T'], none, some ['P']].filterMap (id : Option Str → Option Str)) ≠ [] →
        ∃ s, c.subcategories = [s] ∧ s.name = allName ∧
          s.product_types =
            (([some ['T'], none, some ['P']].filterMap (id : Option Str → Option Str)).map
              ProductType.mk)) :=
  all_categories_hierarchy [⟨['S'], [some ['T'], none, some ['P']]⟩] 0
    ⟨['S'], [some ['T'], none, some ['P']]⟩ rfl

/-- C8: when the reference id matches no stored item, or the matched
reference has no (truthy) product type, `find_alternatives` returns an
empty list after the single reference query, issuing no candidate query —
for every filter argument, including one with a product-type override. -/
theorem find_alternatives_missing_ref (store : Store) (gearId : Str)
    (filter : Option AlternativeFilter) (limit : Nat)
    (h : (store.gear.find? fun g => decide (g.gearId = some gearId)) = none ∨
      ∃ ref, (store.gear.find? fun g => decide (g.gearId = some gearId)) = some ref ∧
        truthyStr ref.productType = false) :
    findAlternativesT store gearId filter limit = ([], 1) := by
  unfold findAlternativesT
  rcases h with h | ⟨ref, h, htr⟩
  · rw [h]
  · rw [h]
    simp [htr]

/-- C8 witness: an empty store (reference absent) and a store whose matched
reference lacks a product type both give the empty result with one query,
also under a product-type override filter. -/
theorem find_alternatives_missing_ref_witness :
    findAlternativesT { gear := [] } ['x'] (some { product_type := some ['T'] }) 10 = ([], 1) ∧
    findAlternativesT { gear := [{ gearId := some ['x'] }] } ['x'] none 10 = ([], 1) :=
  ⟨find_alternatives_missing_ref { gear := [] } ['x'] (some { product_type := some ['T'] }) 10
      (Or.inl rfl),
   find_alternatives_missing_ref { gear := [{ gearId := some ['x'] }] } ['x'] none 10
      (Or.inr ⟨{ gearId := some ['x'] }, by decide, rfl⟩)⟩

/-- C2: in both autocomplete operations, a returned row whose name starts
with the query (case-insensitively, tier 0) is ordered strictly before a
row whose name merely contains it elsewhere (tier 1) — equivalently no
tier-0 row follows a tier-1 row; rows of equal tier are in ascending name
order; and the result length is at most the requested limit. -/
theorem autocomplete_ordering (store : Store) (q : Str) (limit : Nat) :
    ((autocompleteGearT store q limit).length ≤ limit ∧
      (∀ i j : Fin (autocompleteGearT store q limit).length, (i : Nat) < (j : Nat) →
        acTier q ((autocompleteGearT store q limit).get j).name = 0 →
        acTier q ((autocompleteGearT store q limit).get i).name = 0) ∧
      (∀ i j : Fin (autocompleteGearT store q limit).length, (i : Nat) < (j : Nat) →
        acTier q ((autocompleteGearT store q limit).get i).name =
          acTier q ((autocompleteGearT store q limit).get j).name →
        strLeB ((autocompleteGearT store q limit).get i).name
          ((autocompleteGearT store q limit).get j).name = true)) ∧
    ((autocompleteBrandsT store q limit).length ≤ limit ∧
      (∀ i j : Fin (autocompleteBrandsT store q limit).length, (i : Nat) < (j : Nat) →
        acTier q ((autocompleteBrandsT store q limit).get j).name = 0 →
        acTier q ((autocompleteBrandsT store q limit).get i).name = 0) ∧
      (∀ i j : Fin (autocompleteBrandsT store q limit).length, (i : Nat) < (j : Nat) →
        acTier q ((autocompleteBrandsT store q limit).get i).name =
          acTier q ((autocompleteBrandsT store q limit).get j).name →
        strLeB ((autocompleteBrandsT store q limit).get i).name
          ((autocompleteBrandsT store q limit).get j).name = true)) := by
  have hgl : (autocompleteGearT store q limit).length ≤ limit := by
    unfold autocompleteGearT
    rw [List.length_map]
    exact (List.length_take _ _).le.trans (min_le_left _ _)
  have hbl : (autocompleteBrandsT store q limit).length ≤ limit := by
    unfold autocompleteBrandsT
    rw [List.length_map]
    exact (List.length_take _ _).le.trans (min_le_left _ _)
  have hg := autocompleteGearT_pairwise store q limit
  have hb := autocompleteBrandsT_pairwise store q limit
  refine ⟨⟨hgl, fun i j hij h0 => ?_, fun i j hij ht => ?_⟩,
    ⟨hbl, fun i j hij h0 => ?_, fun i j hij ht => ?_⟩⟩
  · exact acLe_tier_zero (List.pairwise_iff_get.mp hg i j hij) h0
  · exact acLe_same_tier (List.pairwise_iff_get.mp hg i j hij) ht
  · exact acLe_tier_zero (List.pairwise_iff_get.mp hb i j hij) h0
  · exact acLe_same_tier (List.pairwise_iff_get.mp hb i j hij) ht

/-- C2 witness: on a concrete store, two same-tier gear names come back in
ascending name order, likewise for brands, and the lengths respect the
limit. -/
theorem autocomplete_ordering_witness :
    (autocompleteGearT acStore ['a'] 10).length ≤ 10 ∧
    strLeB ['a', 'b'] ['a', 'c'] = true ∧
    strLeB ['b', 'x'] ['b', 'y'] = true := by
  have hmain := autocomplete_ordering acStore ['a'] 10
  have hb := (autocomplete_ordering acStore ['b'] 10).2.2.2
    ⟨0, by decide⟩ ⟨1, by decide⟩ (by decide) (by decide)
  have hgn := hmain.1.2.2 ⟨0, by decide⟩ ⟨1, by decide⟩ (by decide) (by decide)
  have e0 : ((autocompleteGearT acStore ['a'] 10).get ⟨0, by decide⟩).name = ['a', 'b'] := by
    decide
  have e1 : ((autocompleteGearT acStore ['a'] 10).get ⟨1, by decide⟩).name = ['a', 'c'] := by
    decide
  have f0 : ((autocompleteBrandsT acStore ['b'] 10).get ⟨0, by decide⟩).name = ['b', 'x'] := by
    decide
  have f1 : ((autocompleteBrandsT acStore ['b'] 10).get ⟨1, by decide⟩).name = ['b', 'y'] := by
    decide
  rw [e0, e1] at hgn
  rw [f0, f1] at hb
  exact ⟨hmain.1.1, hgn, hb⟩

/-- C4 counterexample: with a supplied override `product_type = ""` the
code falls back (by truthiness) to the reference's type, so the returned
item's product type differs from the supplied override — refuting the claim
that returned items carry the override's product type whenever an override
is supplied. -/
theorem find_alternatives_empty_override_counterexample :
    ((findAlternativesT altStore ['r'] (some { product_type := some [] }) 10).1.map
        GearItem.product_type) = [some ['T'], some ['T']] ∧
    (some ['T'] : Option Str) ≠ some ([] : Str) := by
  constructor
  · decide
  · decide

theorem findAlternativesT_eq_noref {store : Store} {gearId : Str}
    {filter : Option AlternativeFilter} {limit : Nat}
    (href : (store.gear.find? fun g => decide (g.gearId = some gearId)) = none) :
    findAlternativesT store gearId filter limit = ([], 1) := by
  unfold findAlternativesT
  rw [href]

theorem findAlternativesT_eq_main {store : Store} {gearId : Str}
    {filter : Option AlternativeFilter} {limit : Nat} {ref : GNode}
    (href : (store.gear.find? fun g => decide (g.gearId = some gearId)) = some ref)
    (htr : truthyStr ref.productType = true) :
    findAlternativesT store gearId filter limit =
      ((((store.gear.filter (altPred gearId (altPtParam ref filter) filter)).insertionSort
          altWeightRel).take limit).map mapGearItem, 2) := by
  unfold findAlternativesT
  rw [href]
  simp only [htr, if_true]

theorem findAlternativesT_eq_notype {store : Store} {gearId : Str}
    {filter : Option AlternativeFilter} {limit : Nat} {ref : GNode}
    (href : (store.gear.find? fun g => decide (g.gearId = some gearId)) = some ref)
    (htr : truthyStr ref.productType = false) :
    findAlternativesT store gearId filter limit = ([], 1) := by
  unfold findAlternativesT
  rw [href]
  simp [htr]

/-- C4 (amended): every item returned by `find_alternatives` has a gear id
different from the reference id; every returned item's product type equals
the reference item's product type, or the override filter's product type
when that override is supplied non-empty (an empty-string override is
ignored in favour of the reference's type — this is `altPtParam`); results
are in ascending `weight_grams` order; and the length is capped at the
requested limit. -/
theorem find_alternatives_props (store : Store) (gearId : Str)
    (filter : Option AlternativeFilter) (limit : Nat) :
    (∀ item ∈ (findAlternativesT store gearId filter limit).1, item.gear_id ≠ gearId) ∧
    (∀ ref, (store.gear.find? fun g => decide (g.gearId = some gearId)) = some ref →
      ∀ item ∈ (findAlternativesT store gearId filter limit).1,
        item.product_type = some (altPtParam ref filter)) ∧
    (∀ i j : Fin (findAlternativesT store gearId filter limit).1.length,
      (i : Nat) < (j : Nat) → ∀ wi wj : Int,
        ((findAlternativesT store gearId filter limit).1.get i).weight_grams = some wi →
        ((findAlternativesT store gearId filter limit).1.get j).weight_grams = some wj →
        wi ≤ wj) ∧
    (findAlternativesT store gearId filter limit).1.length ≤ limit := by
  cases href : store.gear.find? fun g => decide (g.gearId = some gearId) with
  | none =>
    rw [findAlternativesT_eq_noref href]
    refine ⟨by simp, fun ref h => ?_, by simp, by simp⟩
    exact absurd h (by simp)
  | some ref =>
    by_cases htr : truthyStr ref.productType = true
    · rw [findAlternativesT_eq_main href htr]
      have hmem : ∀ node ∈ (((store.gear.filter
            (altPred gearId (altPtParam ref filter) filter)).insertionSort
              altWeightRel).take limit),
          altPred gearId (altPtParam ref filter) filter node = true := by
        intro node hn
        have hm : node ∈ (store.gear.filter
            (altPred gearId (altPtParam ref filter) filter)).insertionSort altWeightRel :=
          List.mem_of_mem_take hn
        have hm2 := (List.perm_insertionSort altWeightRel _).mem_iff.mp hm
        exact (List.mem_filter.mp hm2).2
      refine ⟨fun item hitem => ?_, fun ref' href' item hitem => ?_,
        fun i j hij wi wj hwi hwj => ?_, ?_⟩
      · obtain ⟨node, hn, rfl⟩ := List.mem_map.mp hitem
        have hp := hmem node hn
        simp only [altPred, Bool.and_eq_true, decide_eq_true_eq] at hp
        obtain ⟨⟨hpt, hid⟩, _⟩ := hp
        cases hgid : node.gearId with
        | none => rw [hgid] at hid; exact absurd hid (by simp)
        | some gid =>
          rw [hgid] at hid
          simp only [decide_eq_true_eq] at hid
          show (mapGearItem node).gear_id ≠ gearId
          simp only [mapGearItem, hgid, Option.getD_some]
          exact hid
      · have hrr : ref' = ref := (Option.some.inj href').symm
        subst hrr
        obtain ⟨node, hn, rfl⟩ := List.mem_map.mp hitem
        have hp := hmem node hn
        simp only [altPred, Bool.and_eq_true, decide_eq_true_eq] at hp
        exact hp.1.1
      · have hsorted : List.Pairwise altWeightRel
            ((store.gear.filter
              (altPred gearId (altPtParam ref filter) filter)).insertionSort altWeightRel) :=
          List.sorted_insertionSort altWeightRel _
        have hpw : List.Pairwise altWeightRel
            (((store.gear.filter
              (altPred gearId (altPtParam ref filter) filter)).insertionSort
                altWeightRel).take limit) :=
          hsorted.sublist (List.take_sublist _ _)
        have hmp : (((store.gear.filter
              (altPred gearId (altPtParam ref filter) filter)).insertionSort
                altWeightRel).take limit).map mapGearItem
            |>.Pairwise (fun x y : GearItem => weightLe x.weight_grams y.weight_grams = true) :=
          List.pairwise_map.mpr (hpw.imp fun h => h)
        have hr := List.pairwise_iff_get.mp hmp i j hij
        rw [hwi, hwj] at hr
        simpa [weightLe] using hr
      · rw [List.length_map]
        exact (List.length_take _ _).le.trans (min_le_left _ _)
    · rw [findAlternativesT_eq_notype href (by simpa using htr)]
      refine ⟨by simp, fun ref' href' item hitem => absurd hitem (by simp), by simp, by simp⟩

/-- C4 witness: on the concrete three-item store the two candidates come
back lighter-first, both carry the reference's product type, and neither is
the reference itself. -/
theorem find_alternatives_props_witness :
    (∀ item ∈ (findAlternativesT altStore ['r'] none 10).1, item.gear_id ≠ ['r']) ∧
    (3 : Int) ≤ 5 := by
  have hmain := find_alternatives_props altStore ['r'] none 10
  have hord := hmain.2.2.1 ⟨0, by decide⟩ ⟨1, by decide⟩ (by decide) 3 5
    (by decide) (by decide)
  exact ⟨hmain.1, hord⟩
